/-
Verification of the testmqtt traffic-simulator bridge
(internal/sim/sim.go and internal/sim/v5.go: RunV5 and RunV3).

The bridge subscribes to a topic filter on a source broker and republishes
every matching message to a target broker.  We give a shallow embedding of
its state and its operations: the per-message handler `onPublish`, the
delivery goroutine `deliveryTask`, the connect routines `connectTarget` /
`connectSource`, the 5-second health tick `healthTick`, and a small-step
transition system `step` / `run` combining them.  Network outcomes (dial,
CONNECT, SUBSCRIBE, publish results) are external inputs and appear as
boolean / enum parameters.  Go uint64 counters are modelled as Nat (the
counters only grow by 1 at a time and are reset to 0, so no wrap occurs);
the float64 error-ratio test `float64(e)/float64(d) > 0.5` is modelled by
the exact rational equivalent `d < 2*e`, which agrees with the Go code for
all counter values below 2^53.
-/
import Mathlib

namespace Sim

/-- Config from internal/sim/sim.go.  `QoS = -1` preserves the source QoS,
`0..2` overrides it; `QueueSize` bounds concurrent publishes; `Timeout` is
the per-publish deadline (Go time.Duration, here an abstract Nat). -/
structure Config where
  Source : String
  SourceUsername : String
  SourcePassword : String
  Topic : String
  Broker : String
  Username : String
  Password : String
  Verbose : Bool
  QoS : Int
  NoRetain : Bool
  QueueSize : Nat
  Timeout : Nat
  UnixTimestamp : Bool
  deriving DecidableEq

/-- MQTT v5 publish properties copied field-by-field by onPublish
(v5.go lines 142–151). -/
structure PublishProperties where
  PayloadFormat : Option Nat
  MessageExpiry : Option Nat
  ContentType : String
  ResponseTopic : String
  CorrelationData : List Nat
  User : List (String × String)
  deriving DecidableEq

/-- A publish packet (paho.Publish): topic, QoS (byte), retain flag,
payload bytes, optional v5 properties. -/
structure Publish where
  Topic : String
  QoS : Nat
  Retain : Bool
  Payload : List Nat
  Properties : Option PublishProperties
  deriving DecidableEq

/-- The relayed publish packet built inside onPublish (v5.go lines 125–151):
QoS is overridden when `cfg.QoS >= 0` (Go's `byte(cfg.QoS)` conversion is
mod 256), retain is cleared when `cfg.NoRetain`; topic, payload and
properties are passed through unmodified. -/
def buildPub (cfg : Config) (pkt : Publish) : Publish :=
  let qos := if 0 ≤ cfg.QoS then cfg.QoS.toNat % 256 else pkt.QoS
  let retain := if cfg.NoRetain then false else pkt.Retain
  { Topic := pkt.Topic
    QoS := qos
    Retain := retain
    Payload := pkt.Payload
    Properties := pkt.Properties.map fun p =>
      { PayloadFormat := p.PayloadFormat
        MessageExpiry := p.MessageExpiry
        ContentType := p.ContentType
        ResponseTopic := p.ResponseTopic
        CorrelationData := p.CorrelationData
        User := p.User } }

/-- RunV3's onMessage computes the relayed QoS the same way
(v5.go lines 466–469). -/
def relayQoSV3 (cfg : Config) (srcQoS : Nat) : Nat :=
  if 0 ≤ cfg.QoS then cfg.QoS.toNat % 256 else srcQoS

/-- RunV3's onMessage computes the relayed retain flag the same way
(v5.go lines 470–473). -/
def relayRetainV3 (cfg : Config) (srcRetain : Bool) : Bool :=
  if cfg.NoRetain then false else srcRetain

/-- Mutable session state of RunV5: the three lifetime counters, the
shutdown flag, and the number of occupied slots of the buffered channel
`sem` (capacity cfg.QueueSize). -/
structure SimState where
  receivedCount : Nat
  deliveredCount : Nat
  errorCount : Nat
  shuttingDown : Bool
  semUsed : Nat
  deriving DecidableEq

/-- The message handler onPublish (v5.go lines 111–187), up to the point
where the delivery goroutine is spawned.  Returns the state after the
handler and the packet handed to the delivery goroutine, if one was
dispatched.  `receivedCount` is incremented first and unconditionally;
then the shutdown check, then the non-blocking semaphore acquire
(`select`/`default`, succeeds iff a slot is free), then the transform and
the optimistic `deliveredCount` increment. -/
def onPublish (cfg : Config) (s : SimState) (pkt : Publish) :
    SimState × Option Publish :=
  let s1 := { s with receivedCount := s.receivedCount + 1 }
  if s.shuttingDown then (s1, none)
  else if s.semUsed < cfg.QueueSize then
    ({ s1 with semUsed := s.semUsed + 1,
               deliveredCount := s.deliveredCount + 1 },
     some (buildPub cfg pkt))
  else (s1, none)

/-- Result of a `client.Publish` call: ok, or failed (which includes the
context deadline being exceeded). -/
inductive PublishOutcome
  | ok
  | failed
  deriving DecidableEq

/-- One Publish call issued to the target client, with the deadline of the
context it was given. -/
structure PublishCall where
  pkt : Publish
  deadline : Nat
  deriving DecidableEq

/-- The delivery goroutine body (v5.go lines 164–184).  The deferred
`<-sem` always releases the slot.  If the shutdown flag is observed the
task returns without publishing; otherwise, when the target client is
non-nil, exactly one Publish is issued with deadline `cfg.Timeout`, and a
failed publish increments `errorCount` once.  Returns the state after the
task and the list of Publish calls it issued. -/
def deliveryTask (cfg : Config) (pub : Publish) (s : SimState)
    (clientPresent : Bool) (outcome : PublishOutcome) :
    SimState × List PublishCall :=
  let releaseSlot := fun (t : SimState) => { t with semUsed := t.semUsed - 1 }
  if s.shuttingDown then (releaseSlot s, [])
  else if clientPresent then
    match outcome with
    | .ok => (releaseSlot s, [⟨pub, cfg.Timeout⟩])
    | .failed =>
        (releaseSlot { s with errorCount := s.errorCount + 1 },
         [⟨pub, cfg.Timeout⟩])
  else (releaseSlot s, [])

/-- Which of the two broker connections currently held by the session are
open (dialed and not closed). -/
structure LinkState where
  targetOpen : Bool
  sourceOpen : Bool
  deriving DecidableEq

/-- The connectTarget closure (v5.go lines 64–108): close the previous
target connection if any, dial, CONNECT; on CONNECT failure the fresh
connection is closed again, so the target link ends open iff both steps
succeed.  Returns the new link state and whether it succeeded. -/
def connectTarget (dialOk connectOk : Bool) (ls : LinkState) :
    LinkState × Bool :=
  let ls1 := { ls with targetOpen := false }
  if dialOk then
    if connectOk then ({ ls1 with targetOpen := true }, true)
    else (ls1, false)
  else (ls1, false)

/-- One subscription entry of a SUBSCRIBE packet (paho.SubscribeOptions). -/
structure SubscribeOptions where
  Topic : String
  QoS : Nat
  deriving DecidableEq

/-- The connectSource closure (v5.go lines 190–246): close the previous
source connection if any, dial, CONNECT, then SUBSCRIBE to
`{Topic: cfg.Topic, QoS: 2}`; on CONNECT failure the connection is closed,
on SUBSCRIBE failure the client disconnects and the connection is closed.
Returns the new link state, success, and the list of subscription entries
requested on this call. -/
def connectSource (cfg : Config) (dialOk connectOk subOk : Bool)
    (ls : LinkState) : LinkState × Bool × List SubscribeOptions :=
  let ls1 := { ls with sourceOpen := false }
  if dialOk then
    if connectOk then
      let subs : List SubscribeOptions := [{ Topic := cfg.Topic, QoS := 2 }]
      if subOk then ({ ls1 with sourceOpen := true }, true, subs)
      else (ls1, false, subs)
    else (ls1, false, [])
  else (ls1, false, [])

/-- RunV3 subscribes with `sourceClient.Subscribe(cfg.Topic, 2, nil)`
(v5.go line 515). -/
def subscribeV3 (cfg : Config) : SubscribeOptions :=
  { Topic := cfg.Topic, QoS := 2 }

/-- Outcome of the initial connection sequence of RunV5. -/
structure InitResult where
  links : LinkState
  ok : Bool
  sourceConnectAttempted : Bool
  subsIssued : List SubscribeOptions
  deriving DecidableEq

/-- The initial connection sequence (v5.go lines 248–263): connectTarget
first; on failure return the error without touching the source.  Then
connectSource; on failure close the target connection before returning
the error. -/
def initialConnections (cfg : Config)
    (tgtDialOk tgtConnectOk srcDialOk srcConnectOk subOk : Bool) :
    InitResult :=
  let t := connectTarget tgtDialOk tgtConnectOk
    { targetOpen := false, sourceOpen := false }
  if t.2 then
    let s := connectSource cfg srcDialOk srcConnectOk subOk t.1
    if s.2.1 then
      { links := s.1, ok := true, sourceConnectAttempted := true,
        subsIssued := s.2.2 }
    else
      { links := { s.1 with targetOpen := false }, ok := false,
        sourceConnectAttempted := true, subsIssued := s.2.2 }
  else
    { links := t.1, ok := false, sourceConnectAttempted := false,
      subsIssued := [] }

/-- The ticker loop's baseline snapshot and stall counter
(v5.go lines 277–278). -/
structure TickState where
  lastReceived : Nat
  lastDelivered : Nat
  lastErrors : Nat
  sourceStallCount : Nat
  deriving DecidableEq

/-- Everything one health tick produces. -/
structure TickResult where
  ts : TickState
  errorCount : Nat
  links : LinkState
  sourceAttempts : Nat
  targetAttempts : Nat
  subsIssued : List SubscribeOptions
  deriving DecidableEq

/-- The stall-detection block of the ticker (v5.go lines 319–333): if
`deltaReceived == 0 && received > 0` increment the stall counter; once it
is ≥ 3 call connectSource, and reset the counter to 0 only if that
succeeded.  Any other tick resets the counter to 0.  Returns the new stall
counter, the new link state, the number of connectSource calls made, and
the subscription entries those calls requested. -/
def stallCheck (cfg : Config) (deltaReceived received stallCount : Nat)
    (links : LinkState) (srcDialOk srcConnectOk srcSubOk : Bool) :
    Nat × LinkState × Nat × List SubscribeOptions :=
  if deltaReceived = 0 ∧ 0 < received then
    if 3 ≤ stallCount + 1 then
      match connectSource cfg srcDialOk srcConnectOk srcSubOk links with
      | (ls1, connected, subs) =>
          ((if connected then 0 else stallCount + 1), ls1, 1, subs)
    else (stallCount + 1, links, 0, [])
  else (0, links, 0, [])

/-- One iteration of the 5-second status ticker (v5.go lines 306–346),
given the current lifetime counters: compute the per-tick deltas and move
the baselines; run the stall-detection block; then, if `deltaErrors > 100`
or `deltaDelivered > 0 && deltaErrors/deltaDelivered > 0.5` (modelled
exactly as `deltaDelivered < 2*deltaErrors`) call connectTarget and, on
success, store 0 into the lifetime error counter and set `lastErrors = 0`.
`errorCount` in the result is the lifetime error counter after the tick. -/
def healthTick (cfg : Config) (received delivered errors : Nat)
    (ts : TickState) (links : LinkState)
    (srcDialOk srcConnectOk srcSubOk tgtDialOk tgtConnectOk : Bool) :
    TickResult :=
  let deltaReceived := received - ts.lastReceived
  let deltaDelivered := delivered - ts.lastDelivered
  let deltaErrors := errors - ts.lastErrors
  match stallCheck cfg deltaReceived received ts.sourceStallCount links
      srcDialOk srcConnectOk srcSubOk with
  | (stall, links1, srcAttempts, subs) =>
    if 100 < deltaErrors ∨ (0 < deltaDelivered ∧ deltaDelivered < 2 * deltaErrors) then
      match connectTarget tgtDialOk tgtConnectOk links1 with
      | (links2, tOk) =>
        if tOk then
          { ts := ⟨received, delivered, 0, stall⟩, errorCount := 0,
            links := links2, sourceAttempts := srcAttempts,
            targetAttempts := 1, subsIssued := subs }
        else
          { ts := ⟨received, delivered, errors, stall⟩, errorCount := errors,
            links := links2, sourceAttempts := srcAttempts,
            targetAttempts := 1, subsIssued := subs }
    else
      { ts := ⟨received, delivered, errors, stall⟩, errorCount := errors,
        links := links1, sourceAttempts := srcAttempts,
        targetAttempts := 0, subsIssued := subs }

/-- The events the bridge session reacts to while Bridging: a message
arriving from the source (onPublish), a delivery goroutine finishing with
some publish outcome, a ticker tick with the outcomes of any reconnect
attempts it makes, and the interrupt signal. -/
inductive Event
  | arrive (pkt : Publish)
  | finish (pub : Publish) (clientPresent : Bool) (outcome : PublishOutcome)
  | tick (srcDialOk srcConnectOk srcSubOk tgtDialOk tgtConnectOk : Bool)
  | sigint
  deriving DecidableEq

/-- The whole session state while Bridging. -/
structure RunState where
  sim : SimState
  ticks : TickState
  links : LinkState
  deriving DecidableEq

/-- Small-step semantics of the Bridging loop: each event applies the
corresponding piece of RunV5 to the session state.  `sigint` sets the
shutdown flag and closes both connections (v5.go lines 282–304). -/
def step (cfg : Config) (st : RunState) : Event → RunState
  | .arrive pkt => { st with sim := (onPublish cfg st.sim pkt).1 }
  | .finish pub cp oc =>
      { st with sim := (deliveryTask cfg pub st.sim cp oc).1 }
  | .tick sd sc ss td tc =>
      let r := healthTick cfg st.sim.receivedCount st.sim.deliveredCount
        st.sim.errorCount st.ticks st.links sd sc ss td tc
      { sim := { st.sim with errorCount := r.errorCount }
        ticks := r.ts
        links := r.links }
  | .sigint =>
      { st with
        sim := { st.sim with shuttingDown := true }
        links := { targetOpen := false, sourceOpen := false } }

/-- Session state at the moment Bridging begins: counters at zero, no slot
taken, both links connected. -/
def initState : RunState :=
  { sim := ⟨0, 0, 0, false, 0⟩
    ticks := ⟨0, 0, 0, 0⟩
    links := ⟨true, true⟩ }

/-- A run of the Bridging loop over a list of events. -/
def run (cfg : Config) (evs : List Event) : RunState :=
  evs.foldl (step cfg) initState

/-! ### Concrete values used by witnesses and counterexamples -/

/-- A concrete configuration: preserve QoS, keep retain, 10 slots. -/
def cfgA : Config :=
  { Source := "s", SourceUsername := "", SourcePassword := "", Topic := "t",
    Broker := "b", Username := "", Password := "", Verbose := false,
    QoS := -1, NoRetain := false, QueueSize := 10, Timeout := 100,
    UnixTimestamp := false }

/-- The spec's end-to-end example message: topic t/1, QoS 0, retained,
payload "x". -/
def pktA : Publish :=
  { Topic := "t/1", QoS := 0, Retain := true, Payload := [120],
    Properties := none }

/-! ### Theorems -/

/-- C1: for every message dispatched by onPublish, the relayed QoS equals
the configured override when qosOverride is 0, 1 or 2 and equals the
source QoS when it is -1; the relayed retain flag is false whenever
stripRetain (NoRetain) is set and equals the source retain flag otherwise.
The same holds for the RunV3 transform. -/
theorem C1_relay_transform (cfg : Config) (s : SimState) (pkt pub : Publish)
    (srcQoS : Nat) (srcRetain : Bool)
    (h : (onPublish cfg s pkt).2 = some pub) :
    ((cfg.QoS = 0 ∨ cfg.QoS = 1 ∨ cfg.QoS = 2) → pub.QoS = cfg.QoS.toNat) ∧
    (cfg.QoS = -1 → pub.QoS = pkt.QoS) ∧
    (cfg.NoRetain = true → pub.Retain = false) ∧
    (cfg.NoRetain = false → pub.Retain = pkt.Retain) ∧
    ((cfg.QoS = 0 ∨ cfg.QoS = 1 ∨ cfg.QoS = 2) →
      relayQoSV3 cfg srcQoS = cfg.QoS.toNat) ∧
    (cfg.QoS = -1 → relayQoSV3 cfg srcQoS = srcQoS) ∧
    (cfg.NoRetain = true → relayRetainV3 cfg srcRetain = false) ∧
    (cfg.NoRetain = false → relayRetainV3 cfg srcRetain = srcRetain) := by
  have hpub : pub = buildPub cfg pkt := by
    unfold onPublish at h
    split_ifs at h
    all_goals simp_all
  subst hpub
  refine ⟨?_, ?_, ?_, ?_, ?_, ?_, ?_, ?_⟩
  · rintro (hq | hq | hq) <;> simp [buildPub, hq]
  · intro hq; simp [buildPub, hq]
  · intro hq; simp [buildPub, hq]
  · intro hq; simp [buildPub, hq]
  · rintro (hq | hq | hq) <;> simp [relayQoSV3, hq]
  · intro hq; simp [relayQoSV3, hq]
  · intro hq; simp [relayRetainV3, hq]
  · intro hq; simp [relayRetainV3, hq]

/-- C1 witness: with qosOverride 1 and stripRetain set, the message
dispatched for a QoS-0 retained source message has QoS 1 and retain
false. -/
theorem C1_relay_transform_witness :
    (onPublish { cfgA with QoS := 1, NoRetain := true }
        ⟨0, 0, 0, false, 0⟩ pktA).2 =
      some (buildPub { cfgA with QoS := 1, NoRetain := true } pktA) ∧
    (buildPub { cfgA with QoS := 1, NoRetain := true } pktA).QoS = 1 ∧
    (buildPub { cfgA with QoS := 1, NoRetain := true } pktA).Retain = false := by
  refine ⟨by decide, ?_, ?_⟩
  · exact (C1_relay_transform { cfgA with QoS := 1, NoRetain := true }
      ⟨0, 0, 0, false, 0⟩ pktA _ 0 true (by decide)).1 (Or.inr (Or.inl rfl))
  · exact (C1_relay_transform { cfgA with QoS := 1, NoRetain := true }
      ⟨0, 0, 0, false, 0⟩ pktA _ 0 true (by decide)).2.2.1 rfl

/-- C3: when the limiter has no free slot and the session is not shutting
down, onPublish increments received, leaves delivered, errors and the
occupied slots unchanged, and dispatches no publish. -/
theorem C3_drop_on_full (cfg : Config) (s : SimState) (pkt : Publish)
    (hrun : s.shuttingDown = false) (hfull : cfg.QueueSize ≤ s.semUsed) :
    (onPublish cfg s pkt).1.receivedCount = s.receivedCount + 1 ∧
    (onPublish cfg s pkt).1.deliveredCount = s.deliveredCount ∧
    (onPublish cfg s pkt).1.errorCount = s.errorCount ∧
    (onPublish cfg s pkt).1.semUsed = s.semUsed ∧
    (onPublish cfg s pkt).2 = none := by
  have hnl : ¬ s.semUsed < cfg.QueueSize := Nat.not_lt.mpr hfull
  simp [onPublish, hrun, hnl]

/-- C3 witness: with all 10 slots occupied, a message is counted as
received but not delivered and nothing is dispatched. -/
theorem C3_drop_on_full_witness :
    (onPublish cfgA ⟨7, 5, 1, false, 10⟩ pktA).1.receivedCount = 8 ∧
    (onPublish cfgA ⟨7, 5, 1, false, 10⟩ pktA).1.deliveredCount = 5 ∧
    (onPublish cfgA ⟨7, 5, 1, false, 10⟩ pktA).2 = none := by
  have h := C3_drop_on_full cfgA ⟨7, 5, 1, false, 10⟩ pktA rfl (by decide)
  exact ⟨h.1, h.2.1, h.2.2.2.2⟩

/-- C8: once the shutdown flag is set, an arriving message still
increments received but delivered, errors and the occupied slots are
unchanged and nothing is dispatched; a delivery task that observes the
flag releases its slot without publishing and without counting an
error. -/
theorem C8_shutdown_drop (cfg : Config) (s : SimState) (pkt pub : Publish)
    (cp : Bool) (oc : PublishOutcome) (h : s.shuttingDown = true) :
    (onPublish cfg s pkt).1.receivedCount = s.receivedCount + 1 ∧
    (onPublish cfg s pkt).1.deliveredCount = s.deliveredCount ∧
    (onPublish cfg s pkt).1.errorCount = s.errorCount ∧
    (onPublish cfg s pkt).1.semUsed = s.semUsed ∧
    (onPublish cfg s pkt).2 = none ∧
    (deliveryTask cfg pub s cp oc).1.semUsed = s.semUsed - 1 ∧
    (deliveryTask cfg pub s cp oc).1.errorCount = s.errorCount ∧
    (deliveryTask cfg pub s cp oc).2 = [] := by
  simp [onPublish, deliveryTask, h]

/-- C8 witness: with the shutdown flag set, an arriving message only bumps
received, and a pending delivery task publishes nothing and counts no
error. -/
theorem C8_shutdown_drop_witness :
    (onPublish cfgA ⟨3, 2, 0, true, 1⟩ pktA).1.receivedCount = 4 ∧
    (onPublish cfgA ⟨3, 2, 0, true, 1⟩ pktA).2 = none ∧
    (deliveryTask cfgA pktA ⟨3, 2, 0, true, 1⟩ true PublishOutcome.failed).1.errorCount = 0 ∧
    (deliveryTask cfgA pktA ⟨3, 2, 0, true, 1⟩ true PublishOutcome.failed).2 = [] := by
  have h := C8_shutdown_drop cfgA ⟨3, 2, 0, true, 1⟩ pktA pktA true
    PublishOutcome.failed rfl
  exact ⟨h.1, h.2.2.2.2.1, h.2.2.2.2.2.2.1, h.2.2.2.2.2.2.2⟩

/-- C9: a delivery task issues at most one publish call, every call it
issues carries the configured per-message deadline and the dispatched
packet, the limiter slot is always released, received and delivered are
untouched, a failed publish (including deadline exceeded) increments
errors exactly once, and a successful publish leaves errors unchanged. -/
theorem C9_delivery_task (cfg : Config) (pub : Publish) (s : SimState)
    (cp : Bool) (oc : PublishOutcome) :
    (∀ call ∈ (deliveryTask cfg pub s cp oc).2,
      call.deadline = cfg.Timeout ∧ call.pkt = pub) ∧
    (deliveryTask cfg pub s cp oc).2.length ≤ 1 ∧
    (deliveryTask cfg pub s cp oc).1.semUsed = s.semUsed - 1 ∧
    (deliveryTask cfg pub s cp oc).1.receivedCount = s.receivedCount ∧
    (deliveryTask cfg pub s cp oc).1.deliveredCount = s.deliveredCount ∧
    (s.shuttingDown = false → cp = true → oc = PublishOutcome.failed →
      (deliveryTask cfg pub s cp oc).1.errorCount = s.errorCount + 1) ∧
    (oc = PublishOutcome.ok →
      (deliveryTask cfg pub s cp oc).1.errorCount = s.errorCount) := by
  cases oc <;> cases cp <;>
    simp [deliveryTask] <;> split_ifs <;> simp_all

/-- C9 witness: a failed publish on a live task releases the slot and
counts one error; a successful one counts none. -/
theorem C9_delivery_task_witness :
    (deliveryTask cfgA pktA ⟨5, 4, 0, false, 3⟩ true PublishOutcome.failed).1.errorCount = 1 ∧
    (deliveryTask cfgA pktA ⟨5, 4, 0, false, 3⟩ true PublishOutcome.failed).1.semUsed = 2 ∧
    (deliveryTask cfgA pktA ⟨5, 4, 0, false, 3⟩ true PublishOutcome.ok).1.errorCount = 0 := by
  have hf := C9_delivery_task cfgA pktA ⟨5, 4, 0, false, 3⟩ true
    PublishOutcome.failed
  have hk := C9_delivery_task cfgA pktA ⟨5, 4, 0, false, 3⟩ true
    PublishOutcome.ok
  exact ⟨hf.2.2.2.2.2.1 rfl rfl rfl, hf.2.2.1, hk.2.2.2.2.2.2 rfl⟩

/-- connectSource succeeds iff dial, CONNECT and SUBSCRIBE all
succeed. -/
lemma connectSource_success (cfg : Config) (d c s2 : Bool) (ls : LinkState) :
    (connectSource cfg d c s2 ls).2.1 = (d && c && s2) := by
  cases d <;> cases c <;> cases s2 <;> simp [connectSource]

/-- The lifetime error counter after a tick is either the value it had at
the snapshot or 0. -/
lemma healthTick_errorCount_cases (cfg : Config)
    (received delivered errors : Nat) (ts : TickState) (links : LinkState)
    (sd sc ss td tc : Bool) :
    (healthTick cfg received delivered errors ts links sd sc ss td tc).errorCount = errors ∨
    (healthTick cfg received delivered errors ts links sd sc ss td tc).errorCount = 0 := by
  unfold healthTick
  dsimp only
  repeat' split
  all_goals simp

/-- A step never changes `semUsed` except onPublish's guarded acquire and
the delivery task's release, so the bound `semUsed ≤ QueueSize` is
preserved. -/
lemma step_sem_le (cfg : Config) (st : RunState) (ev : Event)
    (h : st.sim.semUsed ≤ cfg.QueueSize) :
    (step cfg st ev).sim.semUsed ≤ cfg.QueueSize := by
  cases ev with
  | arrive pkt =>
      simp only [step, onPublish]
      split_ifs <;> simp <;> omega
  | finish pub cp oc =>
      cases oc <;> cases cp <;> simp only [step, deliveryTask] <;>
        split_ifs <;> simp <;> omega
  | tick sd sc ss td tc => simpa [step] using h
  | sigint => simpa [step] using h

/-- The semaphore bound holds along any foldl of steps. -/
lemma foldl_sem_le (cfg : Config) (evs : List Event) (st : RunState)
    (h : st.sim.semUsed ≤ cfg.QueueSize) :
    (evs.foldl (step cfg) st).sim.semUsed ≤ cfg.QueueSize := by
  induction evs generalizing st with
  | nil => simpa using h
  | cons e rest ih =>
      simp only [List.foldl_cons]
      exact ih (step cfg st e) (step_sem_le cfg st e h)

/-- A step preserves `delivered ≤ received`. -/
lemma step_dr (cfg : Config) (st : RunState) (ev : Event)
    (h : st.sim.deliveredCount ≤ st.sim.receivedCount) :
    (step cfg st ev).sim.deliveredCount ≤ (step cfg st ev).sim.receivedCount := by
  cases ev with
  | arrive pkt =>
      simp only [step, onPublish]
      split_ifs <;> simp <;> omega
  | finish pub cp oc =>
      cases oc <;> cases cp <;> simp only [step, deliveryTask] <;>
        split_ifs <;> simp <;> omega
  | tick sd sc ss td tc => simpa [step] using h
  | sigint => simpa [step] using h

/-- `delivered ≤ received` holds along any foldl of steps. -/
lemma foldl_dr (cfg : Config) (evs : List Event) (st : RunState)
    (h : st.sim.deliveredCount ≤ st.sim.receivedCount) :
    (evs.foldl (step cfg) st).sim.deliveredCount ≤
      (evs.foldl (step cfg) st).sim.receivedCount := by
  induction evs generalizing st with
  | nil => simpa using h
  | cons e rest ih =>
      simp only [List.foldl_cons]
      exact ih (step cfg st e) (step_dr cfg st e h)

/-- A run on which two messages are relayed, both publishes fail, and then
a health tick sees the 100% error ratio and successfully reconnects the
target. -/
def evsC2 : List Event :=
  [Event.arrive pktA, Event.arrive pktA,
   Event.finish (buildPub cfgA pktA) true PublishOutcome.failed,
   Event.finish (buildPub cfgA pktA) true PublishOutcome.failed,
   Event.tick true true true true true]

/-- C2 counterexample: the lifetime errors counter is not non-decreasing
over a run: after two failed publishes it is 2, and the next health tick
(error ratio 2/2 > 0.5, target reconnect succeeds) stores 0 into it. -/
theorem C2_errors_not_monotone :
    (run cfgA (evsC2.take 4)).sim.errorCount = 2 ∧
    (run cfgA evsC2).sim.errorCount = 0 := by decide

/-- C2 amended: over every run, received and delivered are non-decreasing
at every step and `delivered ≤ received` holds at every point; errors is
non-decreasing at every step except that a health tick whose target
reconnect succeeds resets it to 0. -/
theorem C2_amended_monotonicity (cfg : Config) (st : RunState) (ev : Event)
    (evs : List Event) :
    st.sim.receivedCount ≤ (step cfg st ev).sim.receivedCount ∧
    st.sim.deliveredCount ≤ (step cfg st ev).sim.deliveredCount ∧
    (st.sim.deliveredCount ≤ st.sim.receivedCount →
      (step cfg st ev).sim.deliveredCount ≤ (step cfg st ev).sim.receivedCount) ∧
    (st.sim.errorCount ≤ (step cfg st ev).sim.errorCount ∨
      (step cfg st ev).sim.errorCount = 0) ∧
    (run cfg evs).sim.deliveredCount ≤ (run cfg evs).sim.receivedCount := by
  refine ⟨?_, ?_, fun h => step_dr cfg st ev h, ?_,
    foldl_dr cfg evs initState (by simp [initState])⟩
  · cases ev with
    | arrive pkt =>
        simp only [step, onPublish]
        split_ifs <;> simp
    | finish pub cp oc =>
        cases oc <;> cases cp <;> simp only [step, deliveryTask] <;>
          split_ifs <;> simp
    | tick sd sc ss td tc => simp [step]
    | sigint => simp [step]
  · cases ev with
    | arrive pkt =>
        simp only [step, onPublish]
        split_ifs <;> simp
    | finish pub cp oc =>
        cases oc <;> cases cp <;> simp only [step, deliveryTask] <;>
          split_ifs <;> simp
    | tick sd sc ss td tc => simp [step]
    | sigint => simp [step]
  · cases ev with
    | arrive pkt =>
        left
        simp only [step, onPublish]
        split_ifs <;> simp
    | finish pub cp oc =>
        left
        cases oc <;> cases cp <;> simp only [step, deliveryTask] <;>
          split_ifs <;> simp
    | tick sd sc ss td tc =>
        rcases healthTick_errorCount_cases cfg st.sim.receivedCount
            st.sim.deliveredCount st.sim.errorCount st.ticks st.links
            sd sc ss td tc with h | h
        · left; simp [step, h]
        · right; simp [step, h]
    | sigint => left; simp [step]

/-- C2 amended witness: on the concrete run evsC2, delivered never exceeds
received, and the arrive step only grows the counters. -/
theorem C2_amended_monotonicity_witness :
    initState.sim.receivedCount ≤
      (step cfgA initState (Event.arrive pktA)).sim.receivedCount ∧
    (run cfgA evsC2).sim.deliveredCount ≤ (run cfgA evsC2).sim.receivedCount := by
  have h := C2_amended_monotonicity cfgA initState (Event.arrive pktA) evsC2
  exact ⟨h.1, h.2.2.2.2⟩

/-- C7: along every run the number of occupied limiter slots never exceeds
QueueSize (maxInFlight), and a message that finds every slot occupied is
dropped: no slot is taken and nothing is dispatched or buffered. -/
theorem C7_backpressure_bound (cfg : Config) (evs : List Event)
    (s : SimState) (pkt : Publish) :
    (run cfg evs).sim.semUsed ≤ cfg.QueueSize ∧
    (s.shuttingDown = false → cfg.QueueSize ≤ s.semUsed →
      (onPublish cfg s pkt).2 = none ∧
      (onPublish cfg s pkt).1.semUsed = s.semUsed) := by
  refine ⟨foldl_sem_le cfg evs initState (by simp [initState]), ?_⟩
  intro hrun hfull
  have hnl : ¬ s.semUsed < cfg.QueueSize := Nat.not_lt.mpr hfull
  simp [onPublish, hrun, hnl]

/-- C7 witness: on the concrete run evsC2 the slot bound holds, and with
all 10 slots occupied a message is not dispatched. -/
theorem C7_backpressure_bound_witness :
    (run cfgA evsC2).sim.semUsed ≤ cfgA.QueueSize ∧
    (onPublish cfgA ⟨7, 5, 1, false, 10⟩ pktA).2 = none := by
  have h := C7_backpressure_bound cfgA evsC2 ⟨7, 5, 1, false, 10⟩ pktA
  exact ⟨h.1, (h.2 rfl (by decide)).1⟩

/-- connectTarget succeeds iff dial and CONNECT both succeed. -/
lemma connectTarget_success (d c : Bool) (ls : LinkState) :
    (connectTarget d c ls).2 = (d && c) := by
  cases d <;> cases c <;> simp [connectTarget]

/-- The tick's stall counter comes from the stall-detection block. -/
lemma healthTick_stallCount_eq (cfg : Config)
    (received delivered errors : Nat) (ts : TickState) (links : LinkState)
    (sd sc ss td tc : Bool) :
    (healthTick cfg received delivered errors ts links sd sc ss td tc).ts.sourceStallCount =
      (stallCheck cfg (received - ts.lastReceived) received
        ts.sourceStallCount links sd sc ss).1 := by
  unfold healthTick
  dsimp only
  repeat' split
  all_goals simp_all

/-- The tick's source reconnect attempts come from the stall-detection
block. -/
lemma healthTick_srcAttempts_eq (cfg : Config)
    (received delivered errors : Nat) (ts : TickState) (links : LinkState)
    (sd sc ss td tc : Bool) :
    (healthTick cfg received delivered errors ts links sd sc ss td tc).sourceAttempts =
      (stallCheck cfg (received - ts.lastReceived) received
        ts.sourceStallCount links sd sc ss).2.2.1 := by
  unfold healthTick
  dsimp only
  repeat' split
  all_goals simp_all

/-- The tick's issued subscriptions come from the stall-detection block. -/
lemma healthTick_subs_eq (cfg : Config)
    (received delivered errors : Nat) (ts : TickState) (links : LinkState)
    (sd sc ss td tc : Bool) :
    (healthTick cfg received delivered errors ts links sd sc ss td tc).subsIssued =
      (stallCheck cfg (received - ts.lastReceived) received
        ts.sourceStallCount links sd sc ss).2.2.2 := by
  unfold healthTick
  dsimp only
  repeat' split
  all_goals simp_all

/-- Full case analysis of the stall-detection block: on a stalled tick the
counter is incremented; at ≥ 3 exactly one reconnect is attempted and the
counter resets to 0 only when connectSource succeeds; a non-stalled tick
resets the counter with no attempt. -/
lemma stallCheck_cases (cfg : Config) (dR received c : Nat)
    (links : LinkState) (sd sc ss : Bool) :
    (dR = 0 → 0 < received →
      ((3 ≤ c + 1 →
        (stallCheck cfg dR received c links sd sc ss).2.2.1 = 1 ∧
        ((sd && sc && ss) = true →
          (stallCheck cfg dR received c links sd sc ss).1 = 0) ∧
        ((sd && sc && ss) = false →
          (stallCheck cfg dR received c links sd sc ss).1 = c + 1)) ∧
       (c + 1 < 3 →
        (stallCheck cfg dR received c links sd sc ss).2.2.1 = 0 ∧
        (stallCheck cfg dR received c links sd sc ss).1 = c + 1))) ∧
    (¬(dR = 0 ∧ 0 < received) →
      (stallCheck cfg dR received c links sd sc ss).2.2.1 = 0 ∧
      (stallCheck cfg dR received c links sd sc ss).1 = 0) := by
  constructor
  · intro h1 h2
    constructor
    · intro h3
      cases sd <;> cases sc <;> cases ss <;>
        simp [stallCheck, connectSource, h1, h2, h3]
    · intro h3
      have h4 : ¬ 3 ≤ c + 1 := by omega
      simp [stallCheck, h1, h2, h4]
  · intro h
    simp [stallCheck, h]

/-- C4 counterexample: with the stall counter at 2, a stalled tick whose
source reconnect attempt fails issues the attempt but leaves the counter
at 3 instead of resetting it to 0. -/
theorem C4_stall_not_reset_on_failed_reconnect :
    (healthTick cfgA 5 0 0 ⟨5, 0, 0, 2⟩ ⟨true, true⟩ false false false true true).sourceAttempts = 1 ∧
    (healthTick cfgA 5 0 0 ⟨5, 0, 0, 2⟩ ⟨true, true⟩ false false false true true).ts.sourceStallCount = 3 := by
  decide

/-- C4 amended: on a tick with deltaReceived = 0 and received > 0 the
stall counter is incremented; when the incremented counter reaches 3
exactly one source reconnect attempt is issued, and the counter resets to
0 only if the attempt succeeds — on failure it keeps the incremented
value, so another attempt follows on the next stalled tick; any tick with
deltaReceived > 0 or received = 0 resets the counter to 0 with no
attempt. -/
theorem C4_stall_detection (cfg : Config)
    (received delivered errors : Nat) (ts : TickState) (links : LinkState)
    (sd sc ss td tc : Bool) :
    (received - ts.lastReceived = 0 → 0 < received →
      ((3 ≤ ts.sourceStallCount + 1 →
        (healthTick cfg received delivered errors ts links sd sc ss td tc).sourceAttempts = 1 ∧
        ((sd && sc && ss) = true →
          (healthTick cfg received delivered errors ts links sd sc ss td tc).ts.sourceStallCount = 0) ∧
        ((sd && sc && ss) = false →
          (healthTick cfg received delivered errors ts links sd sc ss td tc).ts.sourceStallCount =
            ts.sourceStallCount + 1)) ∧
       (ts.sourceStallCount + 1 < 3 →
        (healthTick cfg received delivered errors ts links sd sc ss td tc).sourceAttempts = 0 ∧
        (healthTick cfg received delivered errors ts links sd sc ss td tc).ts.sourceStallCount =
          ts.sourceStallCount + 1))) ∧
    (¬(received - ts.lastReceived = 0 ∧ 0 < received) →
      (healthTick cfg received delivered errors ts links sd sc ss td tc).sourceAttempts = 0 ∧
      (healthTick cfg received delivered errors ts links sd sc ss td tc).ts.sourceStallCount = 0) := by
  rw [healthTick_stallCount_eq, healthTick_srcAttempts_eq]
  exact stallCheck_cases cfg (received - ts.lastReceived) received
    ts.sourceStallCount links sd sc ss

/-- C4 amended witness: at stall counter 2 a stalled tick with a
successful reconnect issues one attempt and resets the counter to 0. -/
theorem C4_stall_detection_witness :
    (healthTick cfgA 5 0 0 ⟨5, 0, 0, 2⟩ ⟨true, true⟩ true true true true true).sourceAttempts = 1 ∧
    (healthTick cfgA 5 0 0 ⟨5, 0, 0, 2⟩ ⟨true, true⟩ true true true true true).ts.sourceStallCount = 0 := by
  have h := (C4_stall_detection cfgA 5 0 0 ⟨5, 0, 0, 2⟩ ⟨true, true⟩
    true true true true true).1 (by decide) (by decide)
  exact ⟨(h.1 (by decide)).1, (h.1 (by decide)).2.1 rfl⟩

/-- C5: on a tick where deltaErrors > 100, or deltaDelivered > 0 and
deltaErrors/deltaDelivered > 0.5, exactly one target reconnect attempt is
issued; on success the lifetime errors counter and its baseline are reset
to 0; on failure they are left as they were; on a tick where neither
condition holds no target reconnect is issued and the error counter is
untouched. -/
theorem C5_error_spike (cfg : Config)
    (received delivered errors : Nat) (ts : TickState) (links : LinkState)
    (sd sc ss td tc : Bool) :
    ((100 < errors - ts.lastErrors ∨
      (0 < delivered - ts.lastDelivered ∧
        delivered - ts.lastDelivered < 2 * (errors - ts.lastErrors))) →
      (healthTick cfg received delivered errors ts links sd sc ss td tc).targetAttempts = 1 ∧
      ((td && tc) = true →
        (healthTick cfg received delivered errors ts links sd sc ss td tc).errorCount = 0 ∧
        (healthTick cfg received delivered errors ts links sd sc ss td tc).ts.lastErrors = 0) ∧
      ((td && tc) = false →
        (healthTick cfg received delivered errors ts links sd sc ss td tc).errorCount = errors ∧
        (healthTick cfg received delivered errors ts links sd sc ss td tc).ts.lastErrors = errors)) ∧
    (¬(100 < errors - ts.lastErrors ∨
      (0 < delivered - ts.lastDelivered ∧
        delivered - ts.lastDelivered < 2 * (errors - ts.lastErrors))) →
      (healthTick cfg received delivered errors ts links sd sc ss td tc).targetAttempts = 0 ∧
      (healthTick cfg received delivered errors ts links sd sc ss td tc).errorCount = errors ∧
      (healthTick cfg received delivered errors ts links sd sc ss td tc).ts.lastErrors = errors) := by
  cases td <;> cases tc <;>
    (unfold healthTick; dsimp only; repeat' split) <;>
    simp_all [connectTarget]

/-- C5 witness: the spec's example tick (deltaDelivered = 10,
deltaErrors = 6, ratio 0.6 > 0.5) with a successful reconnect issues one
target attempt and resets the lifetime errors counter to 0. -/
theorem C5_error_spike_witness :
    (healthTick cfgA 20 10 6 ⟨20, 0, 0, 0⟩ ⟨true, true⟩ true true true true true).targetAttempts = 1 ∧
    (healthTick cfgA 20 10 6 ⟨20, 0, 0, 0⟩ ⟨true, true⟩ true true true true true).errorCount = 0 := by
  have h := (C5_error_spike cfgA 20 10 6 ⟨20, 0, 0, 0⟩ ⟨true, true⟩
    true true true true true).1 (by decide)
  exact ⟨h.1, (h.2.1 rfl).1⟩

/-- C6: the initial sequence connects the target before the source: if the
target connect fails the source connect is never attempted and the session
returns an error with nothing left open; if the source connect or its
subscribe fails after the target connected, the target connection is
closed before the error is returned, leaving no open connection; and the
source connect is only ever attempted after the target connect
succeeded. -/
theorem C6_init_ordering (cfg : Config) (tD tC sD sC sub : Bool) :
    ((tD = false ∨ tC = false) →
      (initialConnections cfg tD tC sD sC sub).sourceConnectAttempted = false ∧
      (initialConnections cfg tD tC sD sC sub).ok = false ∧
      (initialConnections cfg tD tC sD sC sub).links.targetOpen = false ∧
      (initialConnections cfg tD tC sD sC sub).links.sourceOpen = false) ∧
    (tD = true → tC = true → (sD = false ∨ sC = false ∨ sub = false) →
      (initialConnections cfg tD tC sD sC sub).ok = false ∧
      (initialConnections cfg tD tC sD sC sub).links.targetOpen = false ∧
      (initialConnections cfg tD tC sD sC sub).links.sourceOpen = false) ∧
    ((initialConnections cfg tD tC sD sC sub).sourceConnectAttempted = true →
      tD = true ∧ tC = true) := by
  cases tD <;> cases tC <;> cases sD <;> cases sC <;> cases sub <;>
    simp [initialConnections, connectTarget, connectSource]

/-- C6 witness: with the target CONNECT failing, the source is never
attempted; with the source CONNECT failing after the target succeeded,
the target connection ends closed. -/
theorem C6_init_ordering_witness :
    (initialConnections cfgA true false true true true).sourceConnectAttempted = false ∧
    (initialConnections cfgA true true true false true).ok = false ∧
    (initialConnections cfgA true true true false true).links.targetOpen = false := by
  have h1 := (C6_init_ordering cfgA true false true true true).1
    (Or.inr rfl)
  have h2 := (C6_init_ordering cfgA true true true false true).2.1
    rfl rfl (Or.inr (Or.inl rfl))
  exact ⟨h1.1, h2.1, h2.2.1⟩

/-- Every subscription entry the stall-detection block requests has QoS 2
and the configured topic filter. -/
lemma stallCheck_subs (cfg : Config) (dR received c : Nat)
    (links : LinkState) (sd sc ss : Bool) :
    ∀ x ∈ (stallCheck cfg dR received c links sd sc ss).2.2.2,
      x.QoS = 2 ∧ x.Topic = cfg.Topic := by
  intro x hx
  cases sd <;> cases sc <;> cases ss <;>
    (unfold stallCheck at hx; dsimp only at hx; repeat' split at hx) <;>
    simp_all [connectSource]

/-- C10: every SUBSCRIBE issued to the source broker — by connectSource at
startup (initialConnections) and on every stall-triggered reconnect
(healthTick), and by RunV3 — requests QoS 2 for the configured topic
filter, whatever the qosOverride setting is. -/
theorem C10_subscribe_qos2 (cfg : Config) (d c s2 : Bool) (ls : LinkState)
    (received delivered errors : Nat) (ts : TickState)
    (sd sc ss td tc tD tC sD sC sub : Bool) :
    (∀ x ∈ (connectSource cfg d c s2 ls).2.2,
      x.QoS = 2 ∧ x.Topic = cfg.Topic) ∧
    (∀ x ∈ (healthTick cfg received delivered errors ts ls sd sc ss td tc).subsIssued,
      x.QoS = 2 ∧ x.Topic = cfg.Topic) ∧
    (∀ x ∈ (initialConnections cfg tD tC sD sC sub).subsIssued,
      x.QoS = 2 ∧ x.Topic = cfg.Topic) ∧
    (subscribeV3 cfg).QoS = 2 ∧ (subscribeV3 cfg).Topic = cfg.Topic := by
  refine ⟨?_, ?_, ?_, rfl, rfl⟩
  · intro x hx
    cases d <;> cases c <;> cases s2 <;> simp_all [connectSource]
  · rw [healthTick_subs_eq]
    exact stallCheck_subs cfg (received - ts.lastReceived) received
      ts.sourceStallCount ls sd sc ss
  · intro x hx
    cases tD <;> cases tC <;> cases sD <;> cases sC <;> cases sub <;>
      simp_all [initialConnections, connectTarget, connectSource]

/-- C10 witness: at startup with everything succeeding, the one
subscription requested is for the configured topic at QoS 2, even though
qosOverride is -1. -/
theorem C10_subscribe_qos2_witness :
    cfgA.QoS = -1 ∧
    (initialConnections cfgA true true true true true).subsIssued =
      [{ Topic := "t", QoS := 2 }] ∧
    ({ Topic := "t", QoS := 2 : SubscribeOptions }).QoS = 2 := by
  refine ⟨rfl, by decide, ?_⟩
  exact ((C10_subscribe_qos2 cfgA true true true ⟨true, true⟩ 0 0 0
    ⟨0, 0, 0, 0⟩ true true true true true true true true true true).2.2.1
    { Topic := "t", QoS := 2 } (by decide)).1

end Sim
